import Mathlib

/-!
# Verification of the 3D Particle System (editor `main.js` and embeddable `particle-renderer.js`)

Shallow embedding of the particle transform-and-morph engine over exact
rational arithmetic.  Numbers are modelled as `ℚ` (the JavaScript code uses
IEEE doubles; all claims under study are stated "over the reals", so the
exact-arithmetic model is the intended semantics).  JavaScript quirks that the
code relies on are modelled explicitly:

* `a || b` on numbers (`0` is falsy) is `jsOr`;
* `x ?? y` (nullish coalescing) is `Option.orElse` / `Option.getD`;
* `Math.round` is round-half-up, i.e. `⌊x + 1/2⌋`, which is Mathlib's `round`;
* `arr[i]` with `i` out of bounds yields `undefined`; dereferencing a
  property of `undefined` throws.  Fallible indexing is modelled with
  `Option`, a thrown `TypeError` with a `none` result;
* `Math.floor(Math.random() * n)` is modelled by `randIdx q n` where
  `q : ℚ` is a parameter standing for the `Math.random()` draw
  (theorems quantify over streams of draws with `0 ≤ q < 1`).

Trigonometric rotation (editor `Particle.update`, renderer `_animate`) is
embedded parametrically: an angle `θ` is represented by its cosine/sine pair
`(c, s)` with `c^2 + s^2 = 1`, keeping every definition computable.
-/

namespace PSys

/-- JavaScript `a || b` on numbers: `0` is falsy. (`NaN` does not arise in the
rational model.) -/
def jsOr (a b : ℚ) : ℚ := if a = 0 then b else a

/-- JavaScript `s || d` on strings: the empty string is falsy. -/
def jsOrStr (s : Option String) (d : String) : String :=
  match s with
  | none => d
  | some v => if v = "" then d else v

/-- JavaScript `Math.round`: round half toward positive infinity, `⌊x + 1/2⌋`.
Mathlib's `round` satisfies `round x = ⌊x + 1/2⌋`. -/
def jsRound (q : ℚ) : ℚ := ((round q : ℤ) : ℚ)

/-- `Math.floor(Math.random() * n)` where `q` stands for the `Math.random()`
draw.  For `0 ≤ q < 1` and `n ≥ 1` this lands in `[0, n)`; for `n = 0` it is
`0` (and JavaScript indexing at 0 into an empty array yields `undefined`). -/
def randIdx (q : ℚ) (n : ℕ) : ℕ := (Int.floor (q * n)).toNat

/-- The cubic ease-in-out curve `t < 0.5 ? 4t³ : 1 − (−2t+2)³/2` shared by
`Particle.updateMorph` (main.js) and `_animate` (particle-renderer.js). -/
def ease (t : ℚ) : ℚ := if t < 1/2 then 4 * t^3 else 1 - (-2*t + 2)^3 / 2

lemma ease_one : ease 1 = 1 := by norm_num [ease]

lemma randIdx_lt {q : ℚ} {n : ℕ} (_h0 : 0 ≤ q) (h1 : q < 1) (hn : 0 < n) :
    randIdx q n < n := by
  have hq : q * n < (n : ℚ) := by
    have : (0:ℚ) < n := by exact_mod_cast hn
    nlinarith
  have hfl : Int.floor (q * (n:ℚ)) < (n : ℤ) := by
    rw [Int.floor_lt]
    exact_mod_cast hq
  have : (Int.floor (q * (n:ℚ))).toNat < n := by
    omega
  simpa [randIdx] using this

/-! ## Rotation math (editor `Particle.update` lines 330–349,
renderer `_animate` lines 320–337)

The three per-axis rotation steps, applied in the fixed order X, then Y,
then Z.  The code skips an axis whose angle is exactly zero; rotating with
`(c, s) = (1, 0)` is definitionally the identity, so the skip is a pure
optimization with identical semantics (as the spec itself notes) and is not
reproduced. -/

/-- A 3D position/vector with exact rational coordinates. -/
@[ext] structure Vec3 where
  x : ℚ
  y : ℚ
  z : ℚ
deriving DecidableEq, Repr

/-- Rotation about the X axis: `y' = y·cosθ − z·sinθ; z' = y·sinθ + z·cosθ`,
with the angle given by its cosine/sine pair. -/
def rotXcs (c s : ℚ) (v : Vec3) : Vec3 :=
  ⟨v.x, v.y * c - v.z * s, v.y * s + v.z * c⟩

/-- Rotation about the Y axis: `x' = x·cosθ + z·sinθ; z' = −x·sinθ + z·cosθ`. -/
def rotYcs (c s : ℚ) (v : Vec3) : Vec3 :=
  ⟨v.x * c + v.z * s, v.y, -v.x * s + v.z * c⟩

/-- Rotation about the Z axis: `x' = x·cosθ − y·sinθ; y' = x·sinθ + y·cosθ`. -/
def rotZcs (c s : ℚ) (v : Vec3) : Vec3 :=
  ⟨v.x * c - v.y * s, v.x * s + v.y * c, v.z⟩

/-- The composite rotation of `Particle.update` / `_animate`: about X, then Y,
then Z, in that fixed order.  Arguments are the cosine/sine pairs of the three
angles `(αx, αy, αz)`. -/
def applyRotation (cx sx cy sy cz sz : ℚ) (v : Vec3) : Vec3 :=
  rotZcs cz sz (rotYcs cy sy (rotXcs cx sx v))

/-- The per-particle transform: translate the base position relative to the
rotation center, rotate about X then Y then Z, translate back (the z
coordinate is kept untranslated as the current depth, and the rotation center
has z = 0 as in the code). -/
def particleTransform (cX cY cx sx cy sy cz sz : ℚ) (base : Vec3) : Vec3 :=
  let v := applyRotation cx sx cy sy cz sz ⟨base.x - cX, base.y - cY, base.z⟩
  ⟨v.x + cX, v.y + cY, v.z⟩

/-- The true inverse of `particleTransform`: undo the rotations in reverse
axis order (about Z by −αz, then Y by −αy, then X by −αx) about the same
center.  Negating an angle negates its sine and fixes its cosine. -/
def inverseTransform (cX cY cx sx cy sy cz sz : ℚ) (v : Vec3) : Vec3 :=
  let w := rotXcs cx (-sx) (rotYcs cy (-sy) (rotZcs cz (-sz) ⟨v.x - cX, v.y - cY, v.z⟩))
  ⟨w.x + cX, w.y + cY, w.z⟩

lemma rotXcs_inv (c s : ℚ) (h : c^2 + s^2 = 1) (v : Vec3) :
    rotXcs c (-s) (rotXcs c s v) = v := by
  cases v with
  | mk x y z =>
    simp only [rotXcs, Vec3.mk.injEq]
    refine ⟨trivial, ?_, ?_⟩
    · linear_combination y * h
    · linear_combination z * h

lemma rotYcs_inv (c s : ℚ) (h : c^2 + s^2 = 1) (v : Vec3) :
    rotYcs c (-s) (rotYcs c s v) = v := by
  cases v with
  | mk x y z =>
    simp only [rotYcs, Vec3.mk.injEq]
    refine ⟨?_, trivial, ?_⟩
    · linear_combination x * h
    · linear_combination z * h

lemma rotZcs_inv (c s : ℚ) (h : c^2 + s^2 = 1) (v : Vec3) :
    rotZcs c (-s) (rotZcs c s v) = v := by
  cases v with
  | mk x y z =>
    simp only [rotZcs, Vec3.mk.injEq]
    refine ⟨?_, ?_, trivial⟩
    · linear_combination x * h
    · linear_combination y * h

/-! ## Editor data model (main.js)

A frame point as stored by `addCurrentAsFrame` / `importSingleFrame`:
`{targetX, targetY, baseZ, r, g, b}`.  The color fields are `Option` because
`importSingleFrame` copies them verbatim from the payload, where they may be
absent (`undefined`). -/

/-- An editor frame point `{targetX, targetY, baseZ, r, g, b}`. -/
structure FPoint where
  targetX : ℚ
  targetY : ℚ
  baseZ : ℚ
  r : Option ℚ
  g : Option ℚ
  b : Option ℚ
deriving DecidableEq, Repr

/-- An editor frame `{name, points}` (the stored `pointCount` field is always
`points.length` and is kept derived). -/
structure Frame where
  name : String
  points : List FPoint
deriving DecidableEq, Repr

/-- The editor `Particle` (main.js class `Particle`), restricted to the fields
the claims under study touch.  The free-floating velocity `vx`/`vy` and the
display-smoothing channels other than `displaySize` are never read by the
morph system, the import/export code, or the opacity-target computation, and
are omitted. -/
structure Particle where
  x : ℚ
  y : ℚ
  layer : ℚ
  targetX : Option ℚ
  targetY : Option ℚ
  baseX : ℚ
  baseY : ℚ
  baseZ : ℚ
  currentZ : ℚ
  hasTarget : Bool
  sourceR : ℚ
  sourceG : ℚ
  sourceB : ℚ
  displaySize : ℚ
  morphTargetX : ℚ
  morphTargetY : ℚ
  morphTargetZ : ℚ
  morphTargetR : ℚ
  morphTargetG : ℚ
  morphTargetB : ℚ
  morphStartX : ℚ
  morphStartY : ℚ
  morphStartZ : ℚ
  morphStartR : ℚ
  morphStartG : ℚ
  morphStartB : ℚ
  markedForRemoval : Bool
deriving DecidableEq

/-- The `Particle` constructor (main.js lines 179–236).  `rx`, `ry` stand for
the `Math.random() * canvas.width/height` fallbacks used when `x`/`y` are
falsy; `none` arguments are JavaScript `undefined`.  Note the `||` fallbacks:
a zero coordinate counts as missing. -/
def Particle.construct (rx ry : ℚ) (x y : Option ℚ) (layer : Option ℚ)
    (targetX targetY : Option ℚ) (baseZ : Option ℚ) : Particle :=
  let xv := jsOr (x.getD 0) rx
  let yv := jsOr (y.getD 0) ry
  let bX := jsOr (targetX.getD 0) xv
  let bY := jsOr (targetY.getD 0) yv
  let bZ := jsOr (baseZ.getD 0) 0
  { x := xv
    y := yv
    layer := jsOr (layer.getD 0) 1
    targetX := targetX
    targetY := targetY
    baseX := bX
    baseY := bY
    baseZ := bZ
    currentZ := bZ
    hasTarget := targetX.isSome && targetY.isSome
    sourceR := 74
    sourceG := 222
    sourceB := 128
    displaySize := 1
    morphTargetX := bX
    morphTargetY := bY
    morphTargetZ := bZ
    morphTargetR := 74
    morphTargetG := 222
    morphTargetB := 128
    morphStartX := bX
    morphStartY := bY
    morphStartZ := bZ
    morphStartR := 74
    morphStartG := 222
    morphStartB := 128
    markedForRemoval := false }

/-- `Particle.updateMorph(progress)` (main.js lines 240–254): ease the raw
parameter, interpolate base position linearly, interpolate and round the
source color. -/
def Particle.updateMorph (progress : ℚ) (p : Particle) : Particle :=
  let t := ease progress
  { p with
    baseX := p.morphStartX + (p.morphTargetX - p.morphStartX) * t
    baseY := p.morphStartY + (p.morphTargetY - p.morphStartY) * t
    baseZ := p.morphStartZ + (p.morphTargetZ - p.morphStartZ) * t
    sourceR := jsRound (p.morphStartR + (p.morphTargetR - p.morphStartR) * t)
    sourceG := jsRound (p.morphStartG + (p.morphTargetG - p.morphStartG) * t)
    sourceB := jsRound (p.morphStartB + (p.morphTargetB - p.morphStartB) * t) }

/-- `Particle.setMorphTarget(point)` (main.js lines 258–274): snapshot the
current base/color as the morph start, set the destination with the
`point.r !== undefined ? point.r : 74` color defaults and `point.baseZ || 0`. -/
def Particle.setMorphTarget (p : Particle) (point : FPoint) : Particle :=
  { p with
    morphStartX := p.baseX
    morphStartY := p.baseY
    morphStartZ := p.baseZ
    morphStartR := p.sourceR
    morphStartG := p.sourceG
    morphStartB := p.sourceB
    morphTargetX := point.targetX
    morphTargetY := point.targetY
    morphTargetZ := jsOr point.baseZ 0
    morphTargetR := point.r.getD 74
    morphTargetG := point.g.getD 222
    morphTargetB := point.b.getD 128 }

/-- The editor's morph-system state: the live particle array, the frame
store, the cursor, and the morph state machine variables (main.js globals
`particles`, `frames`, `currentFrameIndex`, `isMorphing`, `morphProgress`,
`morphSpeed`). -/
structure EditorState where
  particles : List Particle
  frames : List Frame
  currentFrameIndex : ℕ
  isMorphing : Bool
  morphProgress : ℚ
  morphSpeed : ℚ
deriving DecidableEq

/-- One spawned particle in `morphToFrame`'s while-loop:
`new Particle(src.baseX, src.baseY, 1, src.baseX, src.baseY, src.baseZ)`
followed by copying the source color. -/
def spawnedFrom (rx ry : ℚ) (src : Particle) : Particle :=
  let p := Particle.construct rx ry (some src.baseX) (some src.baseY) (some 1)
    (some src.baseX) (some src.baseY) (some src.baseZ)
  { p with sourceR := src.sourceR, sourceG := src.sourceG, sourceB := src.sourceB }

/-- `morphToFrame`'s while-loop (main.js lines 583–597): while the particle
array is shorter than the target point count, pick a uniformly random
existing particle among the first `existingCount` (the length captured before
the loop) and append a clone.  `qsel draw` is the `Math.random()` draw of
iteration `draw`; `rxs`/`rys` are the constructor's random fallbacks.
Indexing out of bounds (only possible when `existingCount = 0`) yields JS
`undefined` and the subsequent property read throws: result `none`.
The JavaScript loop is unbounded; since each iteration appends exactly one
particle it runs at most `targetCount` times, so it is embedded structurally
with a fuel argument that callers set to `targetCount` (fuel exhaustion is
unreachable, see `spawnLoop_spec`). -/
def spawnLoop (qsel rxs rys : ℕ → ℚ) (existingCount targetCount : ℕ) :
    ℕ → ℕ → List Particle → Option (List Particle)
  | fuel, draw, ps =>
    if ps.length < targetCount then
      match fuel with
      | 0 => none
      | fuel' + 1 =>
        match ps[randIdx (qsel draw) existingCount]? with
        | none => none
        | some src =>
          spawnLoop qsel rxs rys existingCount targetCount fuel' (draw + 1)
            (ps ++ [spawnedFrom (rxs draw) (rys draw) src])
    else
      some ps

/-- `morphToFrame`'s target-assignment loop (main.js lines 600–611): particle
`i` gets target point `i` and survives when `i < targetCount`; otherwise it
gets a uniformly random target point (`qmerge i` is that draw) and is marked
for removal.  Reading `targetPoints[...]` of an empty target list yields JS
`undefined` and `setMorphTarget` throws: result `none`. -/
def assignTargets (qmerge : ℕ → ℚ) (tps : List FPoint) :
    ℕ → List Particle → Option (List Particle)
  | _, [] => some []
  | i, p :: rest =>
    if i < tps.length then
      match tps[i]? with
      | none => none
      | some t =>
        (assignTargets qmerge tps (i + 1) rest).map
          (fun r => { p.setMorphTarget t with markedForRemoval := false } :: r)
    else
      match tps[randIdx (qmerge i) tps.length]? with
      | none => none
      | some t =>
        (assignTargets qmerge tps (i + 1) rest).map
          (fun r => { p.setMorphTarget t with markedForRemoval := true } :: r)

/-- `morphToFrame(targetIndex)` (main.js lines 566–620).  Guards: no-op while
already morphing, when the target equals the current index, or when the
target index is out of bounds.  Otherwise clear all removal flags, spawn up
to the target count, assign per-index targets, and enter the Morphing state
with the cursor moved to the target. -/
def morphToFrame (qsel rxs rys qmerge : ℕ → ℚ) (targetIndex : ℤ)
    (s : EditorState) : Option EditorState :=
  if s.isMorphing then some s
  else if targetIndex = (s.currentFrameIndex : ℤ) then some s
  else if targetIndex < 0 ∨ (s.frames.length : ℤ) ≤ targetIndex then some s
  else
    match s.frames[targetIndex.toNat]? with
    | none => none
    | some targetFrame =>
      let targetPoints := targetFrame.points
      let existingCount := s.particles.length
      let cleared := s.particles.map (fun p => { p with markedForRemoval := false })
      match spawnLoop qsel rxs rys existingCount targetPoints.length
          targetPoints.length 0 cleared with
      | none => none
      | some ps2 =>
        match assignTargets qmerge targetPoints 0 ps2 with
        | none => none
        | some ps3 =>
          some { s with
            particles := ps3
            isMorphing := true
            morphProgress := 0
            currentFrameIndex := targetIndex.toNat }

/-- The morph-advance block of the editor's `animate` loop (main.js lines
1668–1693): add `morphSpeed` to the progress; on reaching 1, clamp to 1,
leave the Morphing state and purge marked particles; then apply
`updateMorph(morphProgress)` to every (surviving) particle.  The rest of the
tick (rotation update, depth sort, drawing) reads but never writes the base
positions, colors or removal flags. -/
def morphTick (s : EditorState) : EditorState :=
  if s.isMorphing then
    let progress := s.morphProgress + s.morphSpeed
    if 1 ≤ progress then
      let survivors := s.particles.filter (fun p => !p.markedForRemoval)
      { s with
        isMorphing := false
        morphProgress := 1
        particles := survivors.map (Particle.updateMorph 1) }
    else
      { s with
        morphProgress := progress
        particles := s.particles.map (Particle.updateMorph progress) }
  else s

/-! ## Editor frame import/export (main.js section 5) -/

/-- A point of an interchange payload as consumed by the editor
(`importSingleFrame`): `{x, y, z?, r?, g?, b?}`; absent keys are `none`. -/
structure RawPoint where
  x : ℚ
  y : ℚ
  z : Option ℚ
  r : Option ℚ
  g : Option ℚ
  b : Option ℚ
deriving DecidableEq, Repr

/-- A frame of an interchange payload: `{name?, points}`.  A payload frame
whose `points` key is missing entirely throws inside the editor's try/catch;
that malformed shape is outside the claims under study and not modelled. -/
structure RawFrame where
  name : Option String
  points : List RawPoint
deriving DecidableEq, Repr

/-- An interchange payload `{version?, frame?, frames?}` as inspected by the
editor's `handleFrameImport` and the renderer's `loadFrames`. -/
structure ImportPayload where
  version : Option String
  frame : Option RawFrame
  frames : Option (List RawFrame)
deriving DecidableEq, Repr

/-- Truthiness of `data.version` in `if (!data.version)`: an absent key and
the empty string are both falsy. -/
def jsTruthyVersion (v : Option String) : Bool :=
  match v with
  | none => false
  | some s => !(s == "")

/-- Import failure conditions surfaced by `handleFrameImport` via `alert`
plus early return (the spec's `FormatError`). -/
inductive ImportError
  | missingVersion
  | noFrameData
deriving DecidableEq, Repr

/-- `importSingleFrame(frameData)` (main.js lines 744–761): map the payload
points to editor frame points (`z || 0` default, colors copied verbatim —
possibly `undefined`) and append a frame named
`frameData.name || 'Imported Frame N'`. -/
def importSingleFrame (frameData : RawFrame) (fs : List Frame) : List Frame :=
  let points := frameData.points.map (fun p =>
    { targetX := p.x
      targetY := p.y
      baseZ := p.z.getD 0
      r := p.r
      g := p.g
      b := p.b : FPoint })
  fs ++ [{ name := jsOrStr frameData.name ("Imported Frame " ++ toString (fs.length + 1))
           points := points }]

/-- `handleFrameImport` (main.js lines 701–741), from the parsed payload on:
reject when `version` is falsy; import the single `frame` if present, else
every entry of `frames`, else reject.  The result pairs the new frame store
with the error surfaced (if any); on an error the store is returned
untouched, as the handler returns before pushing anything. -/
def handleFrameImport (data : ImportPayload) (fs : List Frame) :
    List Frame × Option ImportError :=
  if !jsTruthyVersion data.version then (fs, some ImportError.missingVersion)
  else
    match data.frame with
    | some f => (importSingleFrame f fs, none)
    | none =>
      match data.frames with
      | some flist => (flist.foldl (fun acc f => importSingleFrame f acc) fs, none)
      | none => (fs, some ImportError.noFrameData)

/-! ## Embeddable renderer (particle-renderer.js) -/

/-- A normalized renderer point `{x, y, z, r, g, b}` (output of
`_normalizeFrame`, and also the shape of the recentered/scaled target points
computed inside `_morphTo`). -/
structure RPoint where
  x : ℚ
  y : ℚ
  z : ℚ
  r : ℚ
  g : ℚ
  b : ℚ
deriving DecidableEq, Repr

/-- A raw point as accepted by `_normalizeFrame`: any of `x`/`targetX`,
`y`/`targetY`, `z`/`baseZ` spellings, optional colors. -/
structure RRawPoint where
  x : Option ℚ
  y : Option ℚ
  z : Option ℚ
  targetX : Option ℚ
  targetY : Option ℚ
  baseZ : Option ℚ
  r : Option ℚ
  g : Option ℚ
  b : Option ℚ
deriving DecidableEq, Repr

/-- A raw renderer frame `{name?, points}`. -/
structure RRawFrame where
  name : Option String
  points : List RRawPoint
deriving DecidableEq, Repr

/-- A normalized renderer frame. -/
structure RFrame where
  name : String
  points : List RPoint
deriving DecidableEq, Repr

/-- The per-point body of `_normalizeFrame` (particle-renderer.js lines
88–100): `x ?? targetX`, `y ?? targetY`, `z ?? baseZ ?? 0`, colors defaulted
to `(74, 222, 128)`.  A point missing both `x` and `targetX` would leave
JavaScript `undefined` (NaN downstream); that degenerate shape never arises
in the claims and both fallbacks missing is modelled as 0. -/
def normalizePoint (p : RRawPoint) : RPoint :=
  { x := ((p.x).orElse (fun _ => p.targetX)).getD 0
    y := ((p.y).orElse (fun _ => p.targetY)).getD 0
    z := ((p.z).orElse (fun _ => p.baseZ)).getD 0
    r := p.r.getD 74
    g := p.g.getD 222
    b := p.b.getD 128 }

/-- `_normalizeFrame(frame)` (particle-renderer.js lines 88–100). -/
def normalizeFrame (frame : RRawFrame) : RFrame :=
  { name := jsOrStr frame.name "Frame"
    points := frame.points.map normalizePoint }

/-- A renderer particle (the plain objects built by `_loadFrame` /
`_morphTo`). -/
structure RParticle where
  baseX : ℚ
  baseY : ℚ
  baseZ : ℚ
  x : ℚ
  y : ℚ
  z : ℚ
  r : ℚ
  g : ℚ
  b : ℚ
  size : ℚ
  opacity : ℚ
  morphStartX : ℚ
  morphStartY : ℚ
  morphStartZ : ℚ
  morphTargetX : ℚ
  morphTargetY : ℚ
  morphTargetZ : ℚ
  morphStartR : ℚ
  morphStartG : ℚ
  morphStartB : ℚ
  morphTargetR : ℚ
  morphTargetG : ℚ
  morphTargetB : ℚ
  remove : Bool
deriving DecidableEq

/-- The renderer options relevant to the claims (constructor defaults applied
by the host; the remaining options never influence the embedded operations). -/
structure ROptions where
  centerX : Option ℚ
  centerY : Option ℚ
  scale : ℚ
  particleSize : ℚ
  morphSpeed : ℚ
  depthFog : Bool
deriving DecidableEq

/-- The state of a `ParticleRenderer` instance. -/
structure RState where
  canvasW : ℚ
  canvasH : ℚ
  options : ROptions
  particles : List RParticle
  frames : List RFrame
  currentFrame : ℕ
  morphing : Bool
  morphProgress : ℚ
deriving DecidableEq

/-- `_loadFrame(index)` (particle-renderer.js lines 102–132): recenter the
frame's points on the canvas (or configured) center, scale them, and rebuild
the particle array.  Note the morph-state initialisation: the morph target
POSITIONS are set to 0 while the morph target colors are set to the point's
color.  An out-of-range index returns unchanged (`if (!frame) return`).
For an empty point list JavaScript computes a 0/0 = NaN centroid; the claims
only exercise nonempty frames (ℚ yields 0/0 = 0 there). -/
def loadFrame (index : ℕ) (s : RState) : RState :=
  match s.frames[index]? with
  | none => s
  | some frame =>
    let centerX := s.options.centerX.getD (s.canvasW / 2)
    let centerY := s.options.centerY.getD (s.canvasH / 2)
    let scale := s.options.scale
    let pts := frame.points
    let fcx := (pts.map (fun p => p.x)).sum / pts.length
    let fcy := (pts.map (fun p => p.y)).sum / pts.length
    { s with
      particles := pts.map (fun p =>
        { baseX := centerX + (p.x - fcx) * scale
          baseY := centerY + (p.y - fcy) * scale
          baseZ := p.z * scale
          x := 0, y := 0, z := 0
          r := p.r, g := p.g, b := p.b
          size := s.options.particleSize
          opacity := 1
          morphStartX := 0, morphStartY := 0, morphStartZ := 0
          morphTargetX := 0, morphTargetY := 0, morphTargetZ := 0
          morphStartR := p.r, morphStartG := p.g, morphStartB := p.b
          morphTargetR := p.r, morphTargetG := p.g, morphTargetB := p.b
          remove := false : RParticle })
      currentFrame := index }

/-- An interchange payload as the renderer sees it: `{version?, frame?,
frames?}` with raw renderer points.  `loadFrames` never reads `version`. -/
structure RPayload where
  version : Option String
  frame : Option RRawFrame
  frames : Option (List RRawFrame)
deriving DecidableEq, Repr

/-- `loadFrames(source)` (particle-renderer.js lines 54–76), after JSON
parsing: REPLACE the frame list from `frame` / `frames` (no version check at
all), then load frame 0 if any frames are present.  The `Array.isArray(data)`
branch (a bare array payload) is not exercised by the claims. -/
def loadFrames (data : RPayload) (s : RState) : RState :=
  let s1 :=
    match data.frame with
    | some f => { s with frames := [normalizeFrame f] }
    | none =>
      match data.frames with
      | some fl => { s with frames := fl.map normalizeFrame }
      | none => s
  if 0 < s1.frames.length then loadFrame 0 s1 else s1

/-- The spawned clone inside `_morphTo`'s while-loop (particle-renderer.js
lines 191–204): copy base position and color from `src`, zero morph state
positions, color morph state from `src`. -/
def rSpawnedFrom (size : ℚ) (src : RParticle) : RParticle :=
  { baseX := src.baseX, baseY := src.baseY, baseZ := src.baseZ
    x := 0, y := 0, z := 0
    r := src.r, g := src.g, b := src.b
    size := size
    opacity := 1
    morphStartX := 0, morphStartY := 0, morphStartZ := 0
    morphTargetX := 0, morphTargetY := 0, morphTargetZ := 0
    morphStartR := src.r, morphStartG := src.g, morphStartB := src.b
    morphTargetR := src.r, morphTargetG := src.g, morphTargetB := src.b
    remove := false }

/-- `_morphTo`'s while-loop: unlike the editor, the random index is drawn
against the CURRENT (growing) `this.particles.length`.  Indexing an empty
array dereferences `undefined`: result `none`.  Embedded with a fuel argument
like `spawnLoop` (callers pass `targetCount`, which bounds the iterations). -/
def rSpawnLoop (qsel : ℕ → ℚ) (size : ℚ) (targetCount : ℕ) :
    ℕ → ℕ → List RParticle → Option (List RParticle)
  | fuel, draw, ps =>
    if ps.length < targetCount then
      match fuel with
      | 0 => none
      | fuel' + 1 =>
        match ps[randIdx (qsel draw) ps.length]? with
        | none => none
        | some src =>
          rSpawnLoop qsel size targetCount fuel' (draw + 1) (ps ++ [rSpawnedFrom size src])
    else
      some ps

/-- `_morphTo`'s target-assignment loop (particle-renderer.js lines 207–235):
every particle snapshots its current base/color as the morph start; particle
`i` targets point `i` and survives when `i < targetPoints.length`, else it
targets a random point and is flagged `remove`. -/
def rAssignTargets (qmerge : ℕ → ℚ) (tps : List RPoint) :
    ℕ → List RParticle → Option (List RParticle)
  | _, [] => some []
  | i, p :: rest =>
    let p1 := { p with
      morphStartX := p.baseX, morphStartY := p.baseY, morphStartZ := p.baseZ
      morphStartR := p.r, morphStartG := p.g, morphStartB := p.b }
    if i < tps.length then
      match tps[i]? with
      | none => none
      | some t =>
        (rAssignTargets qmerge tps (i + 1) rest).map
          (fun r => { p1 with
            morphTargetX := t.x, morphTargetY := t.y, morphTargetZ := t.z
            morphTargetR := t.r, morphTargetG := t.g, morphTargetB := t.b
            remove := false } :: r)
    else
      match tps[randIdx (qmerge i) tps.length]? with
      | none => none
      | some t =>
        (rAssignTargets qmerge tps (i + 1) rest).map
          (fun r => { p1 with
            morphTargetX := t.x, morphTargetY := t.y, morphTargetZ := t.z
            morphTargetR := t.r, morphTargetG := t.g, morphTargetB := t.b
            remove := true } :: r)

/-- `_morphTo(targetIndex)` (particle-renderer.js lines 173–240): recenter and
scale the target frame's points (the centroid of an EMPTY point list is the
JavaScript division 0/0 = NaN; in ℚ it is 0 — the difference is unobservable
because every later use of it dereferences `undefined` and fails), spawn
clones up to the target count, assign targets, enter the morphing state. -/
def rMorphTo (qsel qmerge : ℕ → ℚ) (targetIndex : ℕ) (s : RState) :
    Option RState :=
  match s.frames[targetIndex]? with
  | none => none
  | some targetFrame =>
    let centerX := s.options.centerX.getD (s.canvasW / 2)
    let centerY := s.options.centerY.getD (s.canvasH / 2)
    let scale := s.options.scale
    let pts := targetFrame.points
    let fcx := (pts.map (fun p => p.x)).sum / pts.length
    let fcy := (pts.map (fun p => p.y)).sum / pts.length
    let targetPoints : List RPoint := pts.map (fun p =>
      { x := centerX + (p.x - fcx) * scale
        y := centerY + (p.y - fcy) * scale
        z := p.z * scale
        r := p.r, g := p.g, b := p.b })
    match rSpawnLoop qsel s.options.particleSize targetPoints.length
        targetPoints.length 0 s.particles with
    | none => none
    | some ps2 =>
      match rAssignTargets qmerge targetPoints 0 ps2 with
      | none => none
      | some ps3 =>
        some { s with
          particles := ps3
          morphing := true
          morphProgress := 0
          currentFrame := targetIndex }

/-- `goTo(index)` (particle-renderer.js lines 166–171): silently return when
the index is out of bounds, a morph is in progress, or the index equals the
current frame; otherwise start the morph. -/
def goTo (qsel qmerge : ℕ → ℚ) (index : ℤ) (s : RState) : Option RState :=
  if index < 0 ∨ (s.frames.length : ℤ) ≤ index ∨ s.morphing then some s
  else if index = (s.currentFrame : ℤ) then some s
  else rMorphTo qsel qmerge index.toNat s

/-- The per-particle morph interpolation of the renderer's `_animate`
(particle-renderer.js lines 287–294). -/
def rUpdateMorph (progress : ℚ) (p : RParticle) : RParticle :=
  let t := ease progress
  { p with
    baseX := p.morphStartX + (p.morphTargetX - p.morphStartX) * t
    baseY := p.morphStartY + (p.morphTargetY - p.morphStartY) * t
    baseZ := p.morphStartZ + (p.morphTargetZ - p.morphStartZ) * t
    r := jsRound (p.morphStartR + (p.morphTargetR - p.morphStartR) * t)
    g := jsRound (p.morphStartG + (p.morphTargetG - p.morphStartG) * t)
    b := jsRound (p.morphStartB + (p.morphTargetB - p.morphStartB) * t) }

/-- The morph-advance block of the renderer's `_animate` (particle-renderer.js
lines 276–295): advance progress; on reaching 1, clamp, leave the morphing
state and filter out `remove`-flagged particles; then interpolate every
(surviving) particle at the eased progress. -/
def rMorphTick (s : RState) : RState :=
  if s.morphing then
    let progress := s.morphProgress + s.options.morphSpeed
    if 1 ≤ progress then
      let survivors := s.particles.filter (fun p => !p.remove)
      { s with
        morphing := false
        morphProgress := 1
        particles := survivors.map (rUpdateMorph 1) }
    else
      { s with
        morphProgress := progress
        particles := s.particles.map (rUpdateMorph progress) }
  else s

/-! ## Depth-fog opacity targets (editor `Particle.draw` lines 400–412,
renderer `_animate` lines 355–360) -/

/-- The editor's per-tick opacity target (main.js lines 400–412): the
layer-based opacity, overridden — when depth fog is on and `maxZ > 0` — by
`max(0.05, 0.15 + normalizedZ² × 0.85)` with
`normalizedZ = (currentZ + maxZ) / (2·maxZ)`. -/
def editorTargetOpacity (layer currentZ maxZ : ℚ) (useDepthFog : Bool) : ℚ :=
  let layerOpacity := max 0.2 (1 - (layer - 1) * 0.04)
  if 0 < maxZ ∧ useDepthFog then
    let normalizedZ := (currentZ + maxZ) / (2 * maxZ)
    let easeZ := normalizedZ * normalizedZ
    max 0.05 (0.15 + easeZ * 0.85)
  else layerOpacity

/-- The renderer's per-particle opacity (particle-renderer.js lines 355–360):
`max(0.1, 0.2 + nz² × 0.8)` when depth fog is on and `maxZ > 0`, else 1. -/
def rendererOpacity (z maxZ : ℚ) (depthFog : Bool) : ℚ :=
  if depthFog ∧ 0 < maxZ then
    let nz := (z + maxZ) / (2 * maxZ)
    max 0.1 (0.2 + nz * nz * 0.8)
  else 1

/-- The opacity target formula as WORDED BY THE SPEC (claim C5):
`clamp(0.05, 0.15 + normalizedDepth² × 0.85, 1)`.  Kept separate from the
definitions read off the source so the two can be compared. -/
def claimedFogOpacity (z maxZ : ℚ) : ℚ :=
  let nd := (z + maxZ) / (2 * maxZ)
  max 0.05 (min (0.15 + nd^2 * 0.85) 1)

/-! ## Fill-mode pixel sampling (editor `processSampling`, main.js lines
1409–1426) -/

/-- One RGBA pixel of the sampling canvas. -/
structure Pixel where
  r : ℕ
  g : ℕ
  b : ℕ
  alpha : ℕ
deriving DecidableEq, Repr

/-- A pixel source: canvas dimensions plus per-coordinate pixel data
(`getImageData`). -/
structure PixelSource where
  width : ℕ
  height : ℕ
  pixel : ℕ → ℕ → Pixel

/-- The `isWhite` visibility predicate (main.js lines 1317–1321): some channel
above 128 and alpha above 128; out-of-bounds pixels are not visible
(`getPixelColor` returns `null`). -/
def isWhite (src : PixelSource) (x y : ℕ) : Bool :=
  if x < src.width ∧ y < src.height then
    let c := src.pixel x y
    (decide (128 < c.r) || decide (128 < c.g) || decide (128 < c.b)) &&
      decide (128 < c.alpha)
  else false

/-- A sampled point (the `{x, y, r, g, b}` objects pushed by
`processSampling`). -/
structure SPoint where
  x : ℚ
  y : ℚ
  r : ℕ
  g : ℕ
  b : ℕ
deriving DecidableEq, Repr

/-- The coordinates visited by `for (v = 0; v < bound; v += step)` for a
positive step: the multiples of `step` below `bound`, in increasing order. -/
def gridCoords (bound step : ℕ) : List ℕ :=
  (List.range bound).filter (fun v => v % step == 0)

/-- Fill-mode sampling (main.js lines 1409–1426): scan the grid rows then
columns with the configured stride, emit a point (scaled back by
`sampleScale`) with the pixel's color at every visible grid cell. -/
def fillSample (src : PixelSource) (step : ℕ) (sampleScale : ℚ) : List SPoint :=
  (gridCoords src.height step).flatMap (fun y =>
    (gridCoords src.width step).filterMap (fun x =>
      if isWhite src x y then
        some { x := (x : ℚ) / sampleScale
               y := (y : ℚ) / sampleScale
               r := (src.pixel x y).r
               g := (src.pixel x y).g
               b := (src.pixel x y).b }
      else none))

/-! ## Shared helper lemmas -/

lemma jsRound_int {x : ℚ} (h : ∃ a : ℤ, x = a) : jsRound x = x := by
  obtain ⟨a, rfl⟩ := h
  simp [jsRound]

lemma updateMorph_one (p : Particle) :
    (Particle.updateMorph 1 p).baseX = p.morphTargetX ∧
    (Particle.updateMorph 1 p).baseY = p.morphTargetY ∧
    (Particle.updateMorph 1 p).baseZ = p.morphTargetZ ∧
    (Particle.updateMorph 1 p).sourceR = jsRound p.morphTargetR ∧
    (Particle.updateMorph 1 p).sourceG = jsRound p.morphTargetG ∧
    (Particle.updateMorph 1 p).sourceB = jsRound p.morphTargetB := by
  simp only [Particle.updateMorph, ease_one]
  refine ⟨by ring, by ring, by ring, ?_, ?_, ?_⟩ <;> · congr 1; ring

lemma updateMorph_morphTarget (t : ℚ) (p : Particle) :
    (Particle.updateMorph t p).morphTargetX = p.morphTargetX ∧
    (Particle.updateMorph t p).morphTargetY = p.morphTargetY ∧
    (Particle.updateMorph t p).morphTargetZ = p.morphTargetZ ∧
    (Particle.updateMorph t p).morphTargetR = p.morphTargetR ∧
    (Particle.updateMorph t p).morphTargetG = p.morphTargetG ∧
    (Particle.updateMorph t p).morphTargetB = p.morphTargetB := by
  simp [Particle.updateMorph]

lemma rUpdateMorph_one (p : RParticle) :
    (rUpdateMorph 1 p).baseX = p.morphTargetX ∧
    (rUpdateMorph 1 p).baseY = p.morphTargetY ∧
    (rUpdateMorph 1 p).baseZ = p.morphTargetZ ∧
    (rUpdateMorph 1 p).r = jsRound p.morphTargetR ∧
    (rUpdateMorph 1 p).g = jsRound p.morphTargetG ∧
    (rUpdateMorph 1 p).b = jsRound p.morphTargetB := by
  simp only [rUpdateMorph, ease_one]
  refine ⟨by ring, by ring, by ring, ?_, ?_, ?_⟩ <;> · congr 1; ring

lemma morphTick_complete {s : EditorState} (hs : s.isMorphing = true)
    (hsp : 1 ≤ s.morphProgress + s.morphSpeed) :
    morphTick s = { s with
      isMorphing := false
      morphProgress := 1
      particles := (s.particles.filter (fun p => !p.markedForRemoval)).map
        (Particle.updateMorph 1) } := by
  simp [morphTick, hs, hsp]

lemma morphTick_advance {s : EditorState} (hs : s.isMorphing = true)
    (hsp : ¬ 1 ≤ s.morphProgress + s.morphSpeed) :
    morphTick s = { s with
      morphProgress := s.morphProgress + s.morphSpeed
      particles := s.particles.map (Particle.updateMorph (s.morphProgress + s.morphSpeed)) } := by
  simp [morphTick, hs, hsp]

lemma morphTick_idle {s : EditorState} (hs : s.isMorphing = false) :
    morphTick s = s := by
  simp [morphTick, hs]

lemma rMorphTick_complete {s : RState} (hs : s.morphing = true)
    (hsp : 1 ≤ s.morphProgress + s.options.morphSpeed) :
    rMorphTick s = { s with
      morphing := false
      morphProgress := 1
      particles := (s.particles.filter (fun p => !p.remove)).map (rUpdateMorph 1) } := by
  simp [rMorphTick, hs, hsp]

/-! ## Claim C1 — morph endpoint exactness -/

/-- **C1**: for every morph, when the interpolation parameter reaches or
exceeds 1 it is clamped to 1 and a final interpolation is applied, so that
after the finalizing tick every surviving particle's base position
(`baseX`, `baseY`, `baseZ`) and color exactly equal its stored `morphTarget`
values — in the editor (`animate` + `Particle.updateMorph`) and in the
embeddable renderer (`_animate`).  Color channels are integers in [0, 255]
per the data model; the integrality hypotheses record that, making the final
`Math.round` of the interpolated color the identity on the target. -/
theorem c1_morph_endpoint_exact (s : EditorState) (r : RState)
    (hs : s.isMorphing = true) (hsp : 1 ≤ s.morphProgress + s.morphSpeed)
    (hr : r.morphing = true) (hrp : 1 ≤ r.morphProgress + r.options.morphSpeed)
    (hintE : ∀ p ∈ s.particles, (∃ a : ℤ, p.morphTargetR = a) ∧
      (∃ a : ℤ, p.morphTargetG = a) ∧ (∃ a : ℤ, p.morphTargetB = a))
    (hintR : ∀ p ∈ r.particles, (∃ a : ℤ, p.morphTargetR = a) ∧
      (∃ a : ℤ, p.morphTargetG = a) ∧ (∃ a : ℤ, p.morphTargetB = a)) :
    ((morphTick s).isMorphing = false ∧ (morphTick s).morphProgress = 1 ∧
      ∀ p ∈ (morphTick s).particles,
        p.baseX = p.morphTargetX ∧ p.baseY = p.morphTargetY ∧
        p.baseZ = p.morphTargetZ ∧ p.sourceR = p.morphTargetR ∧
        p.sourceG = p.morphTargetG ∧ p.sourceB = p.morphTargetB) ∧
    ((rMorphTick r).morphing = false ∧ (rMorphTick r).morphProgress = 1 ∧
      ∀ p ∈ (rMorphTick r).particles,
        p.baseX = p.morphTargetX ∧ p.baseY = p.morphTargetY ∧
        p.baseZ = p.morphTargetZ ∧ p.r = p.morphTargetR ∧
        p.g = p.morphTargetG ∧ p.b = p.morphTargetB) := by
  constructor
  · rw [morphTick_complete hs hsp]
    refine ⟨rfl, rfl, ?_⟩
    intro p hp
    simp only [List.mem_map] at hp
    obtain ⟨q, hq, rfl⟩ := hp
    have hqmem : q ∈ s.particles := (List.mem_filter.mp hq).1
    obtain ⟨hR, hG, hB⟩ := hintE q hqmem
    obtain ⟨h1, h2, h3, h4, h5, h6⟩ := updateMorph_one q
    obtain ⟨m1, m2, m3, m4, m5, m6⟩ := updateMorph_morphTarget 1 q
    refine ⟨?_, ?_, ?_, ?_, ?_, ?_⟩
    · rw [h1, m1]
    · rw [h2, m2]
    · rw [h3, m3]
    · rw [h4, m4, jsRound_int hR]
    · rw [h5, m5, jsRound_int hG]
    · rw [h6, m6, jsRound_int hB]
  · rw [rMorphTick_complete hr hrp]
    refine ⟨rfl, rfl, ?_⟩
    intro p hp
    simp only [List.mem_map] at hp
    obtain ⟨q, hq, rfl⟩ := hp
    have hqmem : q ∈ r.particles := (List.mem_filter.mp hq).1
    obtain ⟨hR, hG, hB⟩ := hintR q hqmem
    obtain ⟨h1, h2, h3, h4, h5, h6⟩ := rUpdateMorph_one q
    refine ⟨?_, ?_, ?_, ?_, ?_, ?_⟩
    · simpa [rUpdateMorph] using h1
    · simpa [rUpdateMorph] using h2
    · simpa [rUpdateMorph] using h3
    · rw [h4, jsRound_int (by simpa [rUpdateMorph] using hR)]
      simp [rUpdateMorph]
    · rw [h5, jsRound_int (by simpa [rUpdateMorph] using hG)]
      simp [rUpdateMorph]
    · rw [h6, jsRound_int (by simpa [rUpdateMorph] using hB)]
      simp [rUpdateMorph]

/-! ## Concrete fixtures for witnesses and counterexamples -/

/-- The all-zero random stream (a legitimate `Math.random()` value). -/
def zq : ℕ → ℚ := fun _ => 0

/-- An idle anchored editor particle at `(x, y, z)` with color `(r, g, b)`
and consistent morph state (as left behind by a completed load). -/
def particleAt (x y z r g b : ℚ) : Particle :=
  { x := x, y := y, layer := 1
    targetX := some x, targetY := some y
    baseX := x, baseY := y, baseZ := z, currentZ := z
    hasTarget := true
    sourceR := r, sourceG := g, sourceB := b
    displaySize := 1
    morphTargetX := x, morphTargetY := y, morphTargetZ := z
    morphTargetR := r, morphTargetG := g, morphTargetB := b
    morphStartX := x, morphStartY := y, morphStartZ := z
    morphStartR := r, morphStartG := g, morphStartB := b
    markedForRemoval := false }

/-- An idle renderer particle at `(x, y, z)` with color `(r, g, b)`. -/
def rParticleAt (x y z r g b : ℚ) : RParticle :=
  { baseX := x, baseY := y, baseZ := z
    x := 0, y := 0, z := 0
    r := r, g := g, b := b
    size := 2, opacity := 1
    morphStartX := 0, morphStartY := 0, morphStartZ := 0
    morphTargetX := 0, morphTargetY := 0, morphTargetZ := 0
    morphStartR := r, morphStartG := g, morphStartB := b
    morphTargetR := r, morphTargetG := g, morphTargetB := b
    remove := false }

/-- Default-ish renderer options used by the fixtures. -/
def rOpts : ROptions :=
  { centerX := none, centerY := none, scale := 1, particleSize := 2
    morphSpeed := 1/50, depthFog := true }

/-- A mid-morph editor state: one particle travelling from the origin to
`(10, 10, 0)` / color `(4, 5, 6)`, progress 3/4 with speed 1/2 (so the next
tick finalizes). -/
def c1EState : EditorState :=
  { particles := [{ particleAt 0 0 0 1 2 3 with
      morphTargetX := 10, morphTargetY := 10, morphTargetZ := 0
      morphTargetR := 4, morphTargetG := 5, morphTargetB := 6 }]
    frames := []
    currentFrameIndex := 1
    isMorphing := true
    morphProgress := 3/4
    morphSpeed := 1/2 }

/-- A matching mid-morph renderer state. -/
def c1RState : RState :=
  { canvasW := 400, canvasH := 300
    options := { rOpts with morphSpeed := 1/2 }
    particles := [{ rParticleAt 0 0 0 1 2 3 with
      morphTargetX := 10, morphTargetY := 10, morphTargetZ := 0
      morphTargetR := 4, morphTargetG := 5, morphTargetB := 6 }]
    frames := []
    currentFrame := 1
    morphing := true
    morphProgress := 3/4 }

/-- Witness for C1 at the concrete mid-morph states. -/
theorem c1_witness :
    ((morphTick c1EState).isMorphing = false ∧ (morphTick c1EState).morphProgress = 1 ∧
      ∀ p ∈ (morphTick c1EState).particles,
        p.baseX = p.morphTargetX ∧ p.baseY = p.morphTargetY ∧
        p.baseZ = p.morphTargetZ ∧ p.sourceR = p.morphTargetR ∧
        p.sourceG = p.morphTargetG ∧ p.sourceB = p.morphTargetB) ∧
    ((rMorphTick c1RState).morphing = false ∧ (rMorphTick c1RState).morphProgress = 1 ∧
      ∀ p ∈ (rMorphTick c1RState).particles,
        p.baseX = p.morphTargetX ∧ p.baseY = p.morphTargetY ∧
        p.baseZ = p.morphTargetZ ∧ p.r = p.morphTargetR ∧
        p.g = p.morphTargetG ∧ p.b = p.morphTargetB) :=
  c1_morph_endpoint_exact c1EState c1RState rfl (by norm_num [c1EState])
    rfl (by norm_num [c1RState, rOpts])
    (by
      intro p hp
      simp only [c1EState, List.mem_singleton] at hp
      subst hp
      exact ⟨⟨4, by norm_num [particleAt]⟩, ⟨5, by norm_num [particleAt]⟩,
        ⟨6, by norm_num [particleAt]⟩⟩)
    (by
      intro p hp
      simp only [c1RState, List.mem_singleton] at hp
      subst hp
      exact ⟨⟨4, by norm_num [rParticleAt]⟩, ⟨5, by norm_num [rParticleAt]⟩,
        ⟨6, by norm_num [rParticleAt]⟩⟩)

/-! ## Claim C2 — particle count conservation -/

lemma spawnedFrom_unmarked (rx ry : ℚ) (src : Particle) :
    (spawnedFrom rx ry src).markedForRemoval = false := by
  simp [spawnedFrom, Particle.construct]

/-- `spawnLoop` succeeds whenever at least one of the first `existingCount`
particles exists, and it grows the list to `max` of its length and the
target count, appending only unmarked particles. -/
lemma spawnLoop_spec (qsel rxs rys : ℕ → ℚ) (eC tC : ℕ)
    (hq : ∀ i, 0 ≤ qsel i ∧ qsel i < 1) (heC : 0 < eC) :
    ∀ fuel draw ps, tC - ps.length ≤ fuel → eC ≤ ps.length →
      ∃ ps', spawnLoop qsel rxs rys eC tC fuel draw ps = some ps' ∧
        ps'.length = max ps.length tC ∧
        ps'.countP (fun p => !p.markedForRemoval)
          = ps.countP (fun p => !p.markedForRemoval) + (tC - ps.length) := by
  intro fuel
  induction fuel with
  | zero =>
    intro draw ps hfuel _hlen
    rw [spawnLoop]
    rw [if_neg (by omega)]
    exact ⟨ps, rfl, by omega, by omega⟩
  | succ fuel IH =>
    intro draw ps hfuel hlen
    rw [spawnLoop]
    by_cases h : ps.length < tC
    · rw [if_pos h]
      have hidx : randIdx (qsel draw) eC < ps.length :=
        lt_of_lt_of_le (randIdx_lt (hq draw).1 (hq draw).2 heC) hlen
      rw [List.getElem?_eq_getElem hidx]
      have hlen' : (ps ++ [spawnedFrom (rxs draw) (rys draw) ps[randIdx (qsel draw) eC]]).length
          = ps.length + 1 := by simp
      obtain ⟨ps', hps', hlength, hcount⟩ :=
        IH (draw + 1)
          (ps ++ [spawnedFrom (rxs draw) (rys draw) ps[randIdx (qsel draw) eC]])
          (by rw [hlen']; omega) (by rw [hlen']; omega)
      refine ⟨ps', hps', ?_, ?_⟩
      · rw [hlength, hlen']
        omega
      · rw [hcount, List.countP_append]
        have : ([spawnedFrom (rxs draw) (rys draw) ps[randIdx (qsel draw) eC]]).countP
            (fun p => !p.markedForRemoval) = 1 := by
          simp [List.countP_cons, spawnedFrom_unmarked]
        rw [this, hlen']
        omega
    · rw [if_neg h]
      exact ⟨ps, rfl, by omega, by omega⟩

/-- `assignTargets` succeeds on a nonempty target list, preserves the length,
and leaves exactly `min (length) (targets − i)` particles unmarked. -/
lemma assignTargets_spec (qmerge : ℕ → ℚ) (tps : List FPoint)
    (hq : ∀ i, 0 ≤ qmerge i ∧ qmerge i < 1) (hM : 0 < tps.length) :
    ∀ ps i, ∃ ps', assignTargets qmerge tps i ps = some ps' ∧
      ps'.length = ps.length ∧
      ps'.countP (fun p => !p.markedForRemoval) = min ps.length (tps.length - i) := by
  intro ps
  induction ps with
  | nil => intro i; exact ⟨[], rfl, rfl, by simp⟩
  | cons p rest ih =>
    intro i
    obtain ⟨ps'', h1, h2, h3⟩ := ih (i + 1)
    rw [assignTargets]
    by_cases hi : i < tps.length
    · rw [if_pos hi, List.getElem?_eq_getElem hi, h1]
      refine ⟨_, rfl, by simpa using h2, ?_⟩
      rw [List.countP_cons]
      have hmk : (!({ (p.setMorphTarget tps[i]) with markedForRemoval := false }).markedForRemoval)
          = true := by simp
      rw [hmk, h3]
      have hti : tps.length - i = (tps.length - (i + 1)) + 1 := by omega
      simp only [List.length_cons, hti]
      exact (Nat.succ_min_succ _ _).symm
    · rw [if_neg hi]
      have hidx : randIdx (qmerge i) tps.length < tps.length :=
        randIdx_lt (hq i).1 (hq i).2 hM
      rw [List.getElem?_eq_getElem hidx, h1]
      refine ⟨_, rfl, by simpa using h2, ?_⟩
      rw [List.countP_cons]
      have hmk : (!({ (p.setMorphTarget tps[randIdx (qmerge i) tps.length])
          with markedForRemoval := true }).markedForRemoval) = false := by simp
      rw [hmk, h3]
      have h0 : tps.length - i = 0 := by omega
      have h0' : tps.length - (i + 1) = 0 := by omega
      simp [h0, h0']

/-- Starting a morph from an idle state with ≥ 1 live particle toward an
in-range, different frame with ≥ 1 point succeeds, enters the Morphing state,
and leaves exactly `targetCount` particles unmarked. -/
lemma morphToFrame_spec (qsel rxs rys qmerge : ℕ → ℚ)
    (hqsel : ∀ i, 0 ≤ qsel i ∧ qsel i < 1) (hqmerge : ∀ i, 0 ≤ qmerge i ∧ qmerge i < 1)
    (s : EditorState) (targetIndex : ℤ) (tf : Frame)
    (hIdle : s.isMorphing = false) (hN : 0 < s.particles.length)
    (htf : s.frames[targetIndex.toNat]? = some tf) (hM : 0 < tf.points.length)
    (hne : targetIndex ≠ (s.currentFrameIndex : ℤ))
    (hlo : 0 ≤ targetIndex) (hhi : targetIndex < (s.frames.length : ℤ)) :
    ∃ s₁, morphToFrame qsel rxs rys qmerge targetIndex s = some s₁ ∧
      s₁.isMorphing = true ∧
      s₁.particles.countP (fun p => !p.markedForRemoval) = tf.points.length := by
  have hguard3 : ¬(targetIndex < 0 ∨ (s.frames.length : ℤ) ≤ targetIndex) := by
    rintro (h | h) <;> omega
  have hclen : (s.particles.map (fun p => { p with markedForRemoval := false })).length
      = s.particles.length := by simp
  obtain ⟨ps2, hps2, hlen2, _⟩ :=
    spawnLoop_spec qsel rxs rys s.particles.length tf.points.length hqsel hN
      tf.points.length
      0 (s.particles.map (fun p => { p with markedForRemoval := false }))
      (by omega) (by rw [hclen])
  obtain ⟨ps3, hps3, _, hcnt3⟩ := assignTargets_spec qmerge tf.points hqmerge hM ps2 0
  simp only [morphToFrame, hIdle, Bool.false_eq_true, if_false, if_neg hne,
    if_neg hguard3, htf, hps2, hps3]
  refine ⟨_, rfl, rfl, ?_⟩
  rw [hcnt3, hlen2, hclen]
  omega

/-- The morph-tick invariant carrying C2: while morphing, the unmarked count
is the target point count; once idle, the particle count is the target point
count. -/
lemma morphTick_preserves (M : ℕ) (s : EditorState)
    (h : (s.isMorphing = true ∧
            s.particles.countP (fun p => !p.markedForRemoval) = M)
       ∨ (s.isMorphing = false ∧ s.particles.length = M)) :
    ((morphTick s).isMorphing = true ∧
        (morphTick s).particles.countP (fun p => !p.markedForRemoval) = M)
    ∨ ((morphTick s).isMorphing = false ∧ (morphTick s).particles.length = M) := by
  rcases h with ⟨h1, h2⟩ | ⟨h1, h2⟩
  · by_cases hp : 1 ≤ s.morphProgress + s.morphSpeed
    · right
      rw [morphTick_complete h1 hp]
      refine ⟨rfl, ?_⟩
      simp only [List.length_map]
      rw [← List.countP_eq_length_filter]
      exact h2
    · left
      rw [morphTick_advance h1 hp]
      refine ⟨h1, ?_⟩
      rw [List.countP_map]
      have hcomp : ((fun p => !p.markedForRemoval)
          ∘ Particle.updateMorph (s.morphProgress + s.morphSpeed))
          = (fun p : Particle => !p.markedForRemoval) := by
        funext q
        simp [Particle.updateMorph]
      rw [hcomp]
      exact h2
  · rw [morphTick_idle h1]
    right
    exact ⟨h1, h2⟩

/-- **C2**: for every morph started with N ≥ 1 live particles toward a target
frame with M ≥ 1 points, once the morph completes (the morphing flag drops)
and marked-for-removal particles are purged, exactly M particles remain —
for any random draws, any morph speed, and any number of intervening ticks.
(The depth sort in `animate` only permutes the particle array and cannot
change either count.) -/
theorem c2_particle_count_conservation (qsel rxs rys qmerge : ℕ → ℚ)
    (hqsel : ∀ i, 0 ≤ qsel i ∧ qsel i < 1) (hqmerge : ∀ i, 0 ≤ qmerge i ∧ qmerge i < 1)
    (s : EditorState) (targetIndex : ℤ) (tf : Frame)
    (hIdle : s.isMorphing = false) (hN : 0 < s.particles.length)
    (htf : s.frames[targetIndex.toNat]? = some tf) (hM : 0 < tf.points.length)
    (hne : targetIndex ≠ (s.currentFrameIndex : ℤ))
    (hlo : 0 ≤ targetIndex) (hhi : targetIndex < (s.frames.length : ℤ)) :
    ∃ s₁, morphToFrame qsel rxs rys qmerge targetIndex s = some s₁ ∧
      ∀ n : ℕ, (morphTick^[n] s₁).isMorphing = false →
        (morphTick^[n] s₁).particles.length = tf.points.length := by
  obtain ⟨s₁, hs₁, hmorph, hcnt⟩ :=
    morphToFrame_spec qsel rxs rys qmerge hqsel hqmerge s targetIndex tf
      hIdle hN htf hM hne hlo hhi
  refine ⟨s₁, hs₁, ?_⟩
  have hinv : ∀ n : ℕ,
      ((morphTick^[n] s₁).isMorphing = true ∧
        (morphTick^[n] s₁).particles.countP (fun p => !p.markedForRemoval)
          = tf.points.length)
      ∨ ((morphTick^[n] s₁).isMorphing = false ∧
        (morphTick^[n] s₁).particles.length = tf.points.length) := by
    intro n
    induction n with
    | zero => exact Or.inl ⟨hmorph, hcnt⟩
    | succ n ih =>
      rw [Function.iterate_succ_apply']
      exact morphTick_preserves tf.points.length _ ih
  intro n hn
  rcases hinv n with ⟨h1, _⟩ | ⟨_, h2⟩
  · rw [hn] at h1
    simp at h1
  · exact h2

/-- The observable state of an editor particle (base position and logical
color), for concrete scenario checks. -/
structure PSnap where
  x : ℚ
  y : ℚ
  z : ℚ
  r : ℚ
  g : ℚ
  b : ℚ
deriving DecidableEq, Repr

/-- Snapshot of a particle's base position and source color. -/
def Particle.snap (p : Particle) : PSnap :=
  ⟨p.baseX, p.baseY, p.baseZ, p.sourceR, p.sourceG, p.sourceB⟩

/-- Scenario C's source frame: three points. -/
def frameA : Frame :=
  { name := "A"
    points := [{ targetX := 0, targetY := 0, baseZ := 0, r := some 1, g := some 2, b := some 3 },
               { targetX := 5, targetY := 0, baseZ := 0, r := some 1, g := some 2, b := some 3 },
               { targetX := 0, targetY := 5, baseZ := 0, r := some 1, g := some 2, b := some 3 }] }

/-- Scenario C's target frame: a single point at `(10, 10, 0)`, color
`(4, 5, 6)`. -/
def frameB : Frame :=
  { name := "B"
    points := [{ targetX := 10, targetY := 10, baseZ := 0, r := some 4, g := some 5, b := some 6 }] }

/-- Scenario C's initial editor state: three live particles on frame 0,
morph speed 1/2 (the morph completes on the second tick). -/
def scenCState : EditorState :=
  { particles := [particleAt 0 0 0 1 2 3, particleAt 5 0 0 1 2 3, particleAt 0 5 0 1 2 3]
    frames := [frameA, frameB]
    currentFrameIndex := 0
    isMorphing := false
    morphProgress := 0
    morphSpeed := 1/2 }

/-- Witness for C2 at Scenario C: morphing 3 particles to the 1-point frame
leaves, after completion, exactly 1 particle — and (second conjunct, the
scenario's strengthening) that particle's base position and color are exactly
the sole target point. -/
theorem c2_witness :
    (∃ s₁, morphToFrame zq zq zq zq 1 scenCState = some s₁ ∧
      ∀ n : ℕ, (morphTick^[n] s₁).isMorphing = false →
        (morphTick^[n] s₁).particles.length = frameB.points.length) ∧
    (morphToFrame zq zq zq zq 1 scenCState).map
        (fun s₁ => (morphTick^[2] s₁).particles.map Particle.snap)
      = some [⟨10, 10, 0, 4, 5, 6⟩] :=
  ⟨c2_particle_count_conservation zq zq zq zq
      (fun _ => ⟨le_refl 0, by norm_num [zq]⟩) (fun _ => ⟨le_refl 0, by norm_num [zq]⟩)
      scenCState 1 frameB rfl (by decide) (by decide) (by decide)
      (by decide) (by decide) (by decide),
    by with_unfolding_all decide⟩

/-! ## Claim C9 — morphTo/goTo guard no-ops -/

/-- **C9**: a call to the editor's `morphToFrame` or the renderer's `goTo`
while a morph is in progress, with a target equal to the current frame index,
or with an out-of-bounds target, is a no-op: it returns with the whole state
(particle set, current frame index, morphing flag) unchanged. -/
theorem c9_noop_guards (qsel rxs rys qmerge qs2 qm2 : ℕ → ℚ)
    (targetIndex : ℤ) (s : EditorState) (index : ℤ) (r : RState)
    (hE : s.isMorphing = true ∨ targetIndex = (s.currentFrameIndex : ℤ) ∨
      targetIndex < 0 ∨ (s.frames.length : ℤ) ≤ targetIndex)
    (hR : r.morphing = true ∨ index = (r.currentFrame : ℤ) ∨
      index < 0 ∨ (r.frames.length : ℤ) ≤ index) :
    morphToFrame qsel rxs rys qmerge targetIndex s = some s ∧
    goTo qs2 qm2 index r = some r := by
  constructor
  · unfold morphToFrame
    rcases hE with h | h | h | h
    · simp [h]
    · simp [h]
    · have : targetIndex < 0 ∨ (s.frames.length : ℤ) ≤ targetIndex := Or.inl h
      simp only [this, if_true]
      split <;> [rfl; skip]
      split <;> rfl
    · have : targetIndex < 0 ∨ (s.frames.length : ℤ) ≤ targetIndex := Or.inr h
      simp only [this, if_true]
      split <;> [rfl; skip]
      split <;> rfl
  · unfold goTo
    rcases hR with h | h | h | h
    · have : index < 0 ∨ (r.frames.length : ℤ) ≤ index ∨ r.morphing = true :=
        Or.inr (Or.inr h)
      simp [this]
    · by_cases h1 : index < 0 ∨ (r.frames.length : ℤ) ≤ index ∨ r.morphing = true
      · simp [h1]
      · simp [h1, h]
    · simp [Or.inl h]
    · have : index < 0 ∨ (r.frames.length : ℤ) ≤ index ∨ r.morphing = true :=
        Or.inr (Or.inl h)
      simp [this]

/-- An idle renderer state sitting on frame 0 (for the C9 witness). -/
def rIdleState : RState :=
  { c1RState with morphing := false, currentFrame := 0 }

/-- Witness for C9: repeated `morphTo(1)` while morphing (editor) and
`goTo(0)` at the current index (renderer) are no-ops. -/
theorem c9_witness :
    morphToFrame zq zq zq zq 1 { scenCState with isMorphing := true } =
      some { scenCState with isMorphing := true } ∧
    goTo zq zq 0 rIdleState = some rIdleState :=
  c9_noop_guards zq zq zq zq zq zq 1 { scenCState with isMorphing := true }
    0 rIdleState (Or.inl rfl) (Or.inr (Or.inl (by decide)))

/-! ## Claim C10 — empty point sequences crash the morph controller -/

/-- Editor state with one live particle whose frame store holds an EMPTY
second frame. -/
def emptyTargetState : EditorState :=
  { particles := [particleAt 0 0 0 74 222 128]
    frames := [{ name := "A", points := [⟨0, 0, 0, none, none, none⟩] },
               { name := "Empty", points := [] }]
    currentFrameIndex := 0
    isMorphing := false
    morphProgress := 0
    morphSpeed := 1/50 }

/-- Editor state with an EMPTY live particle set and a nonempty target
frame. -/
def emptyParticlesState : EditorState :=
  { particles := []
    frames := [{ name := "A", points := [] },
               { name := "B", points := [⟨1, 2, 0, some 9, some 9, some 9⟩] }]
    currentFrameIndex := 0
    isMorphing := false
    morphProgress := 0
    morphSpeed := 1/50 }

/-- Renderer state with one live particle whose second frame is empty. -/
def rEmptyTargetState : RState :=
  { canvasW := 400, canvasH := 300
    options := rOpts
    particles := [rParticleAt 0 0 0 74 222 128]
    frames := [{ name := "A", points := [{ x := 0, y := 0, z := 0, r := 74, g := 222, b := 128 }] },
               { name := "Empty", points := [] }]
    currentFrame := 0
    morphing := false
    morphProgress := 0 }

/-- **C10** (code bug): starting a morph toward a frame with an empty point
list while ≥ 1 particle is live makes the editor's `morphToFrame` read
`targetPoints[0]` of the empty array and dereference `undefined`
(`TypeError` inside `setMorphTarget`); starting one with an empty live
particle set makes the spawn loop read `particles[0]` of the empty array and
dereference `undefined`; the renderer's `goTo` toward an empty frame
likewise computes a 0/0 centroid and dereferences `undefined`.  In the
embedding each failure is the `none` result — not the graceful no-op the
spec requires. -/
theorem c10_empty_sequences_crash :
    morphToFrame zq zq zq zq 1 emptyTargetState = none ∧
    morphToFrame zq zq zq zq 1 emptyParticlesState = none ∧
    goTo zq zq 1 rEmptyTargetState = none := by
  with_unfolding_all decide

/-! ## Claim C3 — the Idle `base == morphTarget` invariant -/

/-- A one-point renderer state for loading (point `(10, 20, 0)`, canvas
400×400, so the loaded particle's base is the canvas center `(200, 200)`). -/
def c3RState : RState :=
  { canvasW := 400, canvasH := 400
    options := rOpts
    particles := []
    frames := [{ name := "A", points := [{ x := 10, y := 20, z := 0, r := 74, g := 222, b := 128 }] }]
    currentFrame := 0
    morphing := false
    morphProgress := 0 }

/-- **C3 counterexample**: immediately after the embeddable renderer's
`_loadFrame` — an Idle instant, and one of the claim's own "holds after
loading a frame" cases — the loaded particle has `baseX = 200` but
`morphTargetX = 0`: `base == morphTarget` fails. -/
theorem c3_counterexample :
    (loadFrame 0 c3RState).morphing = false ∧
    ¬ (∀ p ∈ (loadFrame 0 c3RState).particles,
        p.baseX = p.morphTargetX ∧ p.baseY = p.morphTargetY ∧
        p.baseZ = p.morphTargetZ) := by
  with_unfolding_all decide

/-- **C3 amended**: after editor particle construction and after every
completed morph, every particle satisfies `base == morphTarget` (positions
exactly; after a morph the color equals the rounded morph target color, which
is the target itself for the integer colors of the data model).  After the
embeddable renderer's `_loadFrame`, however, only the COLOR halves of the
invariant hold: the morph target positions are initialized to 0 and in
general differ from the base position. -/
theorem c3_amended :
    (∀ rx ry x y layer tX tY bZ,
      (Particle.construct rx ry x y layer tX tY bZ).baseX
          = (Particle.construct rx ry x y layer tX tY bZ).morphTargetX ∧
      (Particle.construct rx ry x y layer tX tY bZ).baseY
          = (Particle.construct rx ry x y layer tX tY bZ).morphTargetY ∧
      (Particle.construct rx ry x y layer tX tY bZ).baseZ
          = (Particle.construct rx ry x y layer tX tY bZ).morphTargetZ ∧
      (Particle.construct rx ry x y layer tX tY bZ).sourceR
          = (Particle.construct rx ry x y layer tX tY bZ).morphTargetR ∧
      (Particle.construct rx ry x y layer tX tY bZ).sourceG
          = (Particle.construct rx ry x y layer tX tY bZ).morphTargetG ∧
      (Particle.construct rx ry x y layer tX tY bZ).sourceB
          = (Particle.construct rx ry x y layer tX tY bZ).morphTargetB) ∧
    (∀ s : EditorState, s.isMorphing = true → 1 ≤ s.morphProgress + s.morphSpeed →
      ∀ p ∈ (morphTick s).particles,
        p.baseX = p.morphTargetX ∧ p.baseY = p.morphTargetY ∧
        p.baseZ = p.morphTargetZ ∧ p.sourceR = jsRound p.morphTargetR ∧
        p.sourceG = jsRound p.morphTargetG ∧ p.sourceB = jsRound p.morphTargetB) ∧
    (∀ (i : ℕ) (s : RState), ∀ p ∈ (loadFrame i s).particles,
      p.r = p.morphTargetR ∧ p.g = p.morphTargetG ∧ p.b = p.morphTargetB ∧
      p.morphTargetX = 0 ∧ p.morphTargetY = 0 ∧ p.morphTargetZ = 0 ∨
      p ∈ s.particles) := by
  refine ⟨?_, ?_, ?_⟩
  · intro rx ry x y layer tX tY bZ
    refine ⟨rfl, rfl, rfl, rfl, rfl, rfl⟩
  · intro s hs hsp p hp
    rw [morphTick_complete hs hsp] at hp
    simp only [List.mem_map] at hp
    obtain ⟨q, _, rfl⟩ := hp
    obtain ⟨h1, h2, h3, h4, h5, h6⟩ := updateMorph_one q
    obtain ⟨m1, m2, m3, m4, m5, m6⟩ := updateMorph_morphTarget 1 q
    exact ⟨by rw [h1, m1], by rw [h2, m2], by rw [h3, m3],
      by rw [h4, m4], by rw [h5, m5], by rw [h6, m6]⟩
  · intro i s p hp
    unfold loadFrame at hp
    cases hf : s.frames[i]? with
    | none => right; rw [hf] at hp; exact hp
    | some frame =>
      left
      rw [hf] at hp
      simp only [List.mem_map] at hp
      obtain ⟨q, _, rfl⟩ := hp
      exact ⟨rfl, rfl, rfl, rfl, rfl, rfl⟩

/-- Witness for C3's amended statement at concrete inputs. -/
theorem c3_witness :
    ((Particle.construct 0 0 (some 3) (some 4) (some 1) (some 3) (some 4) (some 5)).baseX
        = (Particle.construct 0 0 (some 3) (some 4) (some 1) (some 3) (some 4) (some 5)).morphTargetX) ∧
    (∀ p ∈ (morphTick c1EState).particles,
        p.baseX = p.morphTargetX ∧ p.baseY = p.morphTargetY ∧
        p.baseZ = p.morphTargetZ ∧ p.sourceR = jsRound p.morphTargetR ∧
        p.sourceG = jsRound p.morphTargetG ∧ p.sourceB = jsRound p.morphTargetB) ∧
    (∀ p ∈ (loadFrame 0 c3RState).particles,
        p.r = p.morphTargetR ∧ p.g = p.morphTargetG ∧ p.b = p.morphTargetB ∧
        p.morphTargetX = 0 ∧ p.morphTargetY = 0 ∧ p.morphTargetZ = 0 ∨
        p ∈ c3RState.particles) :=
  ⟨(c3_amended.1 0 0 (some 3) (some 4) (some 1) (some 3) (some 4) (some 5)).1,
    c3_amended.2.1 c1EState rfl (by norm_num [c1EState]),
    c3_amended.2.2 0 c3RState⟩

/-! ## Claim C4 — rotation round-trip -/

/-- **C4 counterexample**: with `(α, β, γ) = (π/2, 0, π/2)` — cosine/sine
pairs `(0, 1)`, `(1, 0)`, `(0, 1)` — center `(0, 0)` and base `(1, 0, 0)`,
re-running the fixed X-then-Y-then-Z transform with angles `(−γ, −β, −α)`
(pairs `(0, −1)`, `(1, 0)`, `(0, −1)`) does NOT restore the original
position: it lands at `(0, 0, −1)`. -/
theorem c4_counterexample :
    particleTransform 0 0 0 (-1) 1 0 0 (-1)
        (particleTransform 0 0 0 1 1 0 0 1 ⟨1, 0, 0⟩) ≠ ⟨1, 0, 0⟩ := by
  with_unfolding_all decide

lemma applyRotation_leftInverse (cx sx cy sy cz sz : ℚ)
    (hx : cx^2 + sx^2 = 1) (hy : cy^2 + sy^2 = 1) (hz : cz^2 + sz^2 = 1)
    (u : Vec3) :
    rotXcs cx (-sx) (rotYcs cy (-sy) (rotZcs cz (-sz)
      (applyRotation cx sx cy sy cz sz u))) = u := by
  unfold applyRotation
  rw [rotZcs_inv cz sz hz, rotYcs_inv cy sy hy, rotXcs_inv cx sx hx]

/-- **C4 amended**: rotating by `(α, β, γ)` (X, then Y, then Z) about a
center is undone — exactly, over exact arithmetic — by applying the negated
angles in the REVERSE axis order: about Z by `−γ`, then Y by `−β`, then X by
`−α`, about the same center (`inverseTransform`).  Re-running the fixed
X-then-Y-then-Z transform with the angle triple `(−γ, −β, −α)` is not the
inverse in general (see the counterexample). -/
theorem c4_amended (cX cY cx sx cy sy cz sz : ℚ)
    (hx : cx^2 + sx^2 = 1) (hy : cy^2 + sy^2 = 1) (hz : cz^2 + sz^2 = 1)
    (base : Vec3) :
    inverseTransform cX cY cx sx cy sy cz sz
      (particleTransform cX cY cx sx cy sy cz sz base) = base := by
  unfold particleTransform inverseTransform
  simp only [add_sub_cancel_right]
  have heta : ∀ w : Vec3, (⟨w.x, w.y, w.z⟩ : Vec3) = w := fun w => rfl
  rw [heta, applyRotation_leftInverse cx sx cy sy cz sz hx hy hz]
  cases base with
  | mk a b c => simp

/-- Witness for C4's amended statement: a genuine-angle instance
(`α` with `(cos α, sin α) = (3/5, 4/5)`, `β = 0`, `γ = π/2`), center
`(5, 7)`, base `(1, 2, 3)`. -/
theorem c4_witness :
    ((3:ℚ)/5)^2 + ((4:ℚ)/5)^2 = 1 ∧
    inverseTransform 5 7 (3/5) (4/5) 1 0 0 1
      (particleTransform 5 7 (3/5) (4/5) 1 0 0 1 ⟨1, 2, 3⟩) = ⟨1, 2, 3⟩ :=
  ⟨by norm_num,
    c4_amended 5 7 (3/5) (4/5) 1 0 0 1 (by norm_num) (by norm_num) (by norm_num) ⟨1, 2, 3⟩⟩

/-! ## Claim C5 — depth-fog opacity target formula -/

/-- **C5 counterexample**: the embeddable renderer does NOT use the spec's
`clamp(0.05, 0.15 + nd²·0.85, 1)` formula.  At `z = 0`, `maxZ = 1` with fog
on, the renderer computes `max(0.1, 0.2 + (1/2)²·0.8) = 0.4`, while the
claimed formula gives `0.3625`. -/
theorem c5_counterexample :
    rendererOpacity 0 1 true ≠ claimedFogOpacity 0 1 := by
  with_unfolding_all decide

/-- **C5 amended**: with depth fog enabled, the EDITOR's per-tick opacity
target equals the claimed `clamp(0.05, 0.15 + nd²·0.85, 1)` (for any particle
of the tick: `maxZ ≥ 1` by the floor in `animate` and `|z| ≤ maxZ` by the
max-depth pass, which make the upper clamp at 1 vacuous); the embeddable
renderer instead uses `max(0.1, 0.2 + nd²·0.8)`. -/
theorem c5_amended :
    (∀ layer z maxZ : ℚ, 1 ≤ maxZ → |z| ≤ maxZ →
      editorTargetOpacity layer z maxZ true = claimedFogOpacity z maxZ) ∧
    (∀ z maxZ : ℚ, 0 < maxZ →
      rendererOpacity z maxZ true
        = max 0.1 (0.2 + ((z + maxZ) / (2 * maxZ))^2 * 0.8)) := by
  constructor
  · intro layer z maxZ h1 hz
    have hpos : 0 < maxZ := by linarith
    obtain ⟨hzl, hzr⟩ := abs_le.mp hz
    unfold editorTargetOpacity claimedFogOpacity
    rw [if_pos ⟨hpos, rfl⟩]
    have hnd0 : 0 ≤ (z + maxZ) / (2 * maxZ) :=
      div_nonneg (by linarith) (by linarith)
    have hnd1 : (z + maxZ) / (2 * maxZ) ≤ 1 := by
      rw [div_le_one (by linarith)]
      linarith
    have hX : (0.15 : ℚ) + (z + maxZ) / (2 * maxZ) * ((z + maxZ) / (2 * maxZ)) * 0.85 ≤ 1 := by
      nlinarith
    simp only [pow_two, min_eq_left hX]
  · intro z maxZ hpos
    unfold rendererOpacity
    rw [if_pos ⟨rfl, hpos⟩]
    simp only [pow_two]

/-- Witness for C5's amended statement at `layer = 1`, `z = 0`, `maxZ = 1`. -/
theorem c5_witness :
    (1 : ℚ) ≤ 1 ∧ |(0 : ℚ)| ≤ 1 ∧
    editorTargetOpacity 1 0 1 true = claimedFogOpacity 0 1 ∧
    rendererOpacity 0 1 true = max 0.1 (0.2 + ((0 + 1) / (2 * 1))^2 * 0.8) :=
  ⟨le_refl 1, by norm_num,
    c5_amended.1 1 0 1 (le_refl 1) (by norm_num),
    c5_amended.2 0 1 (by norm_num)⟩

/-! ## Claim C6 — rejection of payloads without a version marker -/

/-- Scenario D's payload, as the renderer sees it: a multi-frame payload
missing the `version` key. -/
def scenDRPayload : RPayload :=
  { version := none
    frame := none
    frames := some [{ name := some "X"
                      points := [{ x := some 1, y := some 1, z := none
                                   targetX := none, targetY := none, baseZ := none
                                   r := none, g := none, b := none }] }] }

/-- A renderer with no frames loaded yet. -/
def rFreshState : RState :=
  { canvasW := 400, canvasH := 300
    options := rOpts
    particles := []
    frames := []
    currentFrame := 0
    morphing := false
    morphProgress := 0 }

/-- **C6 counterexample**: the embeddable renderer's `loadFrames` performs no
version check at all — fed Scenario D's version-less `{"frames": [...]}`
payload it does NOT reject it and its frame store changes. -/
theorem c6_counterexample :
    (loadFrames scenDRPayload rFreshState).frames ≠ rFreshState.frames := by
  with_unfolding_all decide

/-- **C6 amended**: the EDITOR's Frame Store import (`handleFrameImport`)
rejects every payload whose `version` key is absent — including multi-frame
`{"frames": [...]}` payloads — with a `FormatError`-equivalent failure and
leaves the store untouched, and rejects payloads with neither `frame` nor
`frames` the same way; the embeddable renderer's `loadFrames`, however,
never validates `version` and simply replaces its frame list from a
version-less `frames` payload. -/
theorem c6_amended (data : ImportPayload) (fs : List Frame)
    (rdata : RPayload) (fl : List RRawFrame) (r : RState) :
    (data.version = none →
      handleFrameImport data fs = (fs, some ImportError.missingVersion)) ∧
    (jsTruthyVersion data.version = true → data.frame = none → data.frames = none →
      handleFrameImport data fs = (fs, some ImportError.noFrameData)) ∧
    (rdata.frame = none → rdata.frames = some fl →
      (loadFrames rdata r).frames = fl.map normalizeFrame) := by
  refine ⟨?_, ?_, ?_⟩
  · intro hv
    simp [handleFrameImport, hv, jsTruthyVersion]
  · intro hv hf hfs
    simp [handleFrameImport, hv, hf, hfs]
  · intro hf hfs
    unfold loadFrames
    rw [hf, hfs]
    by_cases h : 0 < ({ r with frames := fl.map normalizeFrame } : RState).frames.length
    · rw [if_pos h]
      unfold loadFrame
      cases hx : ({ r with frames := fl.map normalizeFrame } : RState).frames[(0:ℕ)]? with
      | none => simp
      | some fr => simp
    · rw [if_neg h]

/-- Witness for C6's amended statement: Scenario D's payload against the
editor store, and the same payload against the renderer. -/
theorem c6_witness :
    handleFrameImport { version := none, frame := none, frames := some [⟨some "X", [⟨1, 1, none, none, none, none⟩]⟩] } []
      = ([], some ImportError.missingVersion) ∧
    (loadFrames scenDRPayload rFreshState).frames
      = scenDRPayload.frames.get!.map normalizeFrame :=
  ⟨(c6_amended { version := none, frame := none, frames := some [⟨some "X", [⟨1, 1, none, none, none, none⟩]⟩] }
      [] scenDRPayload [] rFreshState).1 rfl,
    (c6_amended { version := none, frame := none, frames := none } []
      scenDRPayload (scenDRPayload.frames.get!) rFreshState).2.2 rfl rfl⟩

/-! ## Claim C7 — import-boundary defaults for color and z -/

/-- Scenario B's payload as the editor parses it:
`{"version":"1.0","frame":{"name":"X","points":[{"x":1,"y":1}]}}`. -/
def scenBPayloadE : ImportPayload :=
  { version := some "1.0"
    frame := some { name := some "X", points := [⟨1, 1, none, none, none, none⟩] }
    frames := none }

/-- Scenario B's payload as the renderer parses it. -/
def scenBPayloadR : RPayload :=
  { version := some "1.0"
    frame := some { name := some "X"
                    points := [{ x := some 1, y := some 1, z := none
                                 targetX := none, targetY := none, baseZ := none
                                 r := none, g := none, b := none }] }
    frames := none }

/-- **C7 counterexample**: importing Scenario B's payload in the EDITOR does
NOT default the colors at the import boundary — the stored frame's sole point
carries no color at all (`r = undefined`), not `74`. -/
theorem c7_counterexample :
    (handleFrameImport scenBPayloadE []).1
      = [{ name := "X", points := [⟨1, 1, 0, none, none, none⟩] }] ∧
    (none : Option ℚ) ≠ some 74 := by
  with_unfolding_all decide

/-- **C7 amended**: the embeddable renderer normalizes at the import
boundary exactly as claimed — absent colors default to `(74, 222, 128)` and
absent z to 0, so Scenario B yields one frame named "X" with the single
point `(1, 1, 0)` colored `(74, 222, 128)`.  The editor instead stores
absent color fields as missing and applies the same `(74, 222, 128)`
defaults only when the point is USED as a morph target
(`setMorphTarget`). -/
theorem c7_amended (p : RRawPoint) (fp : FPoint) (q : Particle) :
    (p.r = none → (normalizePoint p).r = 74) ∧
    (p.g = none → (normalizePoint p).g = 222) ∧
    (p.b = none → (normalizePoint p).b = 128) ∧
    (p.z = none → p.baseZ = none → (normalizePoint p).z = 0) ∧
    (fp.r = none → (q.setMorphTarget fp).morphTargetR = 74) ∧
    (fp.g = none → (q.setMorphTarget fp).morphTargetG = 222) ∧
    (fp.b = none → (q.setMorphTarget fp).morphTargetB = 128) ∧
    (loadFrames scenBPayloadR rFreshState).frames
      = [{ name := "X", points := [⟨1, 1, 0, 74, 222, 128⟩] }] := by
  refine ⟨?_, ?_, ?_, ?_, ?_, ?_, ?_, ?_⟩
  · intro h; simp [normalizePoint, h]
  · intro h; simp [normalizePoint, h]
  · intro h; simp [normalizePoint, h]
  · intro h1 h2; simp [normalizePoint, h1, h2]
  · intro h; simp [Particle.setMorphTarget, h]
  · intro h; simp [Particle.setMorphTarget, h]
  · intro h; simp [Particle.setMorphTarget, h]
  · with_unfolding_all decide

/-- Witness for C7's amended statement at Scenario B's sole point. -/
theorem c7_witness :
    (normalizePoint (⟨some 1, some 1, none, none, none, none, none, none, none⟩ : RRawPoint)).r = 74 ∧
    ((particleAt 0 0 0 1 2 3).setMorphTarget ⟨1, 1, 0, none, none, none⟩).morphTargetR = 74 :=
  ⟨(c7_amended (⟨some 1, some 1, none, none, none, none, none, none, none⟩ : RRawPoint)
      ⟨1, 1, 0, none, none, none⟩ (particleAt 0 0 0 1 2 3)).1 rfl,
    (c7_amended (⟨some 1, some 1, none, none, none, none, none, none, none⟩ : RRawPoint)
      ⟨1, 1, 0, none, none, none⟩ (particleAt 0 0 0 1 2 3)).2.2.2.2.1 rfl⟩

/-! ## Claim C8 — fill-mode sampling monotonicity in the stride -/

/-- A 5×1 pixel source whose only visible pixel sits at `x = 3`. -/
def c8Src : PixelSource :=
  { width := 5
    height := 1
    pixel := fun x _ => if x = 3 then ⟨255, 255, 255, 255⟩ else ⟨0, 0, 0, 255⟩ }

/-- **C8 counterexample**: on `c8Src`, the smaller stride 2 samples the grid
`{0, 2, 4}` and finds nothing, while the larger stride 3 samples `{0, 3}`
and finds the visible pixel — strictly MORE points from the larger stride,
refuting monotonicity for `s1 = 2 < 3 = s2`. -/
theorem c8_counterexample :
    (2 < 3) ∧ (fillSample c8Src 2 1).length < (fillSample c8Src 3 1).length := by
  constructor
  · decide
  · with_unfolding_all decide

lemma gridCoords_sublist (bound : ℕ) {s1 s2 : ℕ} (hd : s1 ∣ s2) :
    (gridCoords bound s2).Sublist (gridCoords bound s1) := by
  apply List.monotone_filter_right
  intro v
  by_cases hv : v % s2 = 0
  · have hsv : s1 ∣ v := hd.trans (Nat.dvd_of_mod_eq_zero hv)
    simp [hv, Nat.mod_eq_zero_of_dvd hsv]
  · simp [hv]

lemma flatMap_sublist {α β : Type} {l₂ l₁ : List α} (h : l₂.Sublist l₁)
    (f g : α → List β) (hfg : ∀ a, (f a).Sublist (g a)) :
    (l₂.flatMap f).Sublist (l₁.flatMap g) := by
  induction h with
  | slnil => simp
  | cons a h ih =>
    simp only [List.flatMap_cons]
    exact ih.trans (List.sublist_append_right _ _)
  | cons₂ a h ih =>
    simp only [List.flatMap_cons]
    exact (hfg a).append ih

/-- **C8 amended**: fill-mode sampling is stride-monotone whenever the larger
stride is a MULTIPLE of the smaller (the coarser grid is then a sub-grid of
the finer one), for every fixed pixel source; for incomparable stride pairs
the grids are incomparable and a smaller stride can yield strictly fewer
points (see the counterexample). -/
theorem c8_amended (src : PixelSource) (scale : ℚ) (s1 s2 : ℕ)
    (_h1 : 0 < s1) (hd : s1 ∣ s2) :
    (fillSample src s2 scale).length ≤ (fillSample src s1 scale).length := by
  apply List.Sublist.length_le
  unfold fillSample
  apply flatMap_sublist (gridCoords_sublist src.height hd)
  intro y
  exact (gridCoords_sublist src.width hd).filterMap _

/-- Witness for C8's amended statement on `c8Src` with strides 2 and 4. -/
theorem c8_witness :
    (0 < 2) ∧ (2 ∣ 4) ∧
    (fillSample c8Src 4 1).length ≤ (fillSample c8Src 2 1).length :=
  ⟨by decide, by decide, c8_amended c8Src 1 2 4 (by decide) (by decide)⟩

end PSys
